import Mathlib

/-!
Samsung EA8076 F1MP panel driver and the OF GPIO stubs.

A shallow embedding of `drivers/gpu/drm/panel/panel-samsung-ea8076-f1mp.c` and of the
`!CONFIG_OF_GPIO` half of `include/linux/of_gpio.h`.

The driver talks to the regulator, GPIO, MIPI-DSI, backlight and DRM subsystems.  Each call
into one of them is recorded as an `Event` appended to a trace, and the value the call returns
is supplied by an environment `Env`, so that every combination of successes and failures is
covered by quantifying over the environment.  `dev_err` logging is not recorded: it has no
effect on control flow or on the device.
-/

namespace EA8076

/-! ## Constants declared in headers that are not part of the sources -/

/-- Modelled from the spec: the errno `ENOMEM`, declared in
`include/uapi/asm-generic/errno-base.h`, which is not among the sources. -/
def ENOMEM : Int := 12

/-- Modelled from the spec: the errno `ENOSYS`, declared in
`include/uapi/asm-generic/errno.h`, which is not among the sources. -/
def ENOSYS : Int := 38

/-- Modelled from the spec: the DCS command byte `MIPI_DCS_WRITE_CONTROL_DISPLAY`, declared
in `include/video/mipi_display.h`, which is not among the sources. -/
def MIPI_DCS_WRITE_CONTROL_DISPLAY : Nat := 0x53

/-- Modelled from the spec: the DCS command byte `MIPI_DCS_WRITE_POWER_SAVE`, declared in
`include/video/mipi_display.h`, which is not among the sources. -/
def MIPI_DCS_WRITE_POWER_SAVE : Nat := 0x55

/-- Modelled from the spec: the mode flag `MIPI_DSI_MODE_VIDEO_BURST`, `BIT(1)` in
`include/drm/drm_mipi_dsi.h`, which is not among the sources. -/
def MIPI_DSI_MODE_VIDEO_BURST : Nat := 2 ^ 1

/-- Modelled from the spec: the mode flag `MIPI_DSI_CLOCK_NON_CONTINUOUS`, `BIT(10)` in
`include/drm/drm_mipi_dsi.h`, which is not among the sources. -/
def MIPI_DSI_CLOCK_NON_CONTINUOUS : Nat := 2 ^ 10

/-- Modelled from the spec: the mode flag `MIPI_DSI_MODE_LPM`, `BIT(11)` in
`include/drm/drm_mipi_dsi.h`, which is not among the sources. -/
def MIPI_DSI_MODE_LPM : Nat := 2 ^ 11

/-- Modelled from the spec: the pixel format `MIPI_DSI_FMT_RGB888`, the first enumerator of
`enum mipi_dsi_pixel_format` in `include/drm/drm_mipi_dsi.h`, which is not among the
sources. -/
def MIPI_DSI_FMT_RGB888 : Nat := 0

/-- Modelled from the spec: the mode type bit `DRM_MODE_TYPE_PREFERRED`, `1 << 3` in
`include/uapi/drm/drm_mode.h`, which is not among the sources. -/
def DRM_MODE_TYPE_PREFERRED : Nat := 2 ^ 3

/-- Modelled from the spec: the mode type bit `DRM_MODE_TYPE_DRIVER`, `1 << 6` in
`include/uapi/drm/drm_mode.h`, which is not among the sources. -/
def DRM_MODE_TYPE_DRIVER : Nat := 2 ^ 6

/-- Modelled from the spec: the largest `unsigned long`, the type of `dsi->mode_flags` in
`struct mipi_dsi_device` (not among the sources), on a 64-bit kernel. -/
def ULONG_MAX : Nat := 2 ^ 64 - 1

/-- Modelled from the spec: the tear modes of `enum mipi_dsi_dcs_tear_mode`, declared in
`include/drm/drm_mipi_dsi.h`, which is not among the sources. -/
inductive mipi_dsi_dcs_tear_mode where
  | MIPI_DSI_DCS_TEAR_MODE_VBLANK
  | MIPI_DSI_DCS_TEAR_MODE_VHBLANK
  deriving DecidableEq, Repr

/-- Modelled from the spec: the initial line states of `enum gpiod_flags`, declared in
`include/linux/gpio/consumer.h`, which is not among the sources. -/
inductive gpiod_flags where
  | GPIOD_ASIS
  | GPIOD_IN
  | GPIOD_OUT_LOW
  | GPIOD_OUT_HIGH
  deriving DecidableEq, Repr

/-! ## Trace of calls into the kernel subsystems -/

/-- One call into a subsystem outside the driver, with the arguments the driver chooses. -/
inductive Op where
  | regulator_bulk_enable
  | regulator_bulk_disable
  | gpiod_set_value_cansleep (value : Int)
  | usleep_range (min max : Nat)
  | msleep (msecs : Nat)
  | mipi_dsi_dcs_exit_sleep_mode
  | mipi_dsi_dcs_enter_sleep_mode
  | mipi_dsi_dcs_set_display_on
  | mipi_dsi_dcs_set_display_off
  | mipi_dsi_dcs_set_tear_on (mode : mipi_dsi_dcs_tear_mode)
  | mipi_dsi_dcs_set_page_address (first last : Nat)
  | mipi_dsi_dcs_set_display_brightness (brightness : Nat)
  | mipi_dsi_dcs_write_buffer (data : List Nat)
  | mipi_dsi_dcs_set_display_brightness_large (brightness : Nat)
  | mipi_dsi_dcs_get_display_brightness_large
  | devm_kzalloc
  | devm_regulator_bulk_get (supplies : List String)
  | devm_gpiod_get (con_id : String) (flags : gpiod_flags)
  | mipi_dsi_set_drvdata
  | drm_panel_init
  | devm_backlight_device_register (brightness max_brightness : Nat)
  | drm_panel_add
  | drm_panel_remove
  | mipi_dsi_attach
  | mipi_dsi_detach
  deriving DecidableEq, Repr

/-- A recorded call: the operation and the value it returned (0 for a `void` operation). -/
structure Event where
  op : Op
  ret : Int
  deriving DecidableEq, Repr

/-- Everything the driver receives from outside the sources. -/
structure Env where
  /-- Return value of the call recorded at position `k` of the trace; negative is an error. -/
  ret : Nat → Int
  /-- Payload delivered by a read recorded at position `k` of the trace. -/
  rd : Nat → Nat
  /-- Whether the macro `mipi_dsi_dcs_write_seq` of `include/drm/drm_mipi_dsi.h` (not among the
  sources) returns from the enclosing function when the write fails, as it does in Linux 6.6. -/
  seq_returns : Bool

/-- The mutable data the driver works on: `struct samsung_ea8076_f1mp`, the fields of
`struct mipi_dsi_device` it assigns, and the trace of calls made so far. -/
structure State where
  /-- Field `ctx->prepared`. -/
  prepared : Bool
  /-- Field `ctx->panel.prepare_prev_first`. -/
  prepare_prev_first : Bool
  /-- Field `dsi->lanes`. -/
  lanes : Nat
  /-- Field `dsi->format`. -/
  format : Nat
  /-- Field `dsi->mode_flags`. -/
  mode_flags : Nat
  trace : List Event
  deriving DecidableEq, Repr

/-- A call whose return value the environment chooses. -/
def call (env : Env) (op : Op) : StateM State Int := fun s =>
  (env.ret s.trace.length, { s with trace := s.trace ++ [⟨op, env.ret s.trace.length⟩] })

/-- A call that returns a status and, through a pointer argument, a payload. -/
def call_read (env : Env) (op : Op) : StateM State (Int × Nat) := fun s =>
  ((env.ret s.trace.length, env.rd s.trace.length),
    { s with trace := s.trace ++ [⟨op, env.ret s.trace.length⟩] })

/-- A call to a `void` function. -/
def call_void (op : Op) : StateM State Unit := fun s =>
  ((), { s with trace := s.trace ++ [⟨op, 0⟩] })

/-! ## The panel driver -/

/-- Source: `samsung_ea8076_f1mp_reset`. -/
def samsung_ea8076_f1mp_reset : StateM State Unit := do
  call_void (.gpiod_set_value_cansleep 1)
  call_void (.usleep_range 1000 2000)
  call_void (.gpiod_set_value_cansleep 0)
  call_void (.usleep_range 10000 11000)

/-- Source: `samsung_ea8076_f1mp_on`.  Each `mipi_dsi_dcs_write_seq(dsi, cmd, seq...)` is the
call `mipi_dsi_dcs_write_buffer(dsi, {cmd, seq...})` followed by the macro's own error
check. -/
def samsung_ea8076_f1mp_on (env : Env) : StateM State Int := do
  let ret ← call env .mipi_dsi_dcs_exit_sleep_mode
  if ret < 0 then
    return ret
  call_void (.usleep_range 10000 11000)
  let ret ← call env (.mipi_dsi_dcs_write_buffer [0xf0, 0x5a, 0x5a])
  if env.seq_returns ∧ ret < 0 then
    return ret
  let ret ← call env (.mipi_dsi_dcs_set_tear_on .MIPI_DSI_DCS_TEAR_MODE_VBLANK)
  if ret < 0 then
    return ret
  let ret ← call env (.mipi_dsi_dcs_write_buffer [0xb7, 0x01, 0x4b])
  if env.seq_returns ∧ ret < 0 then
    return ret
  let ret ← call env (.mipi_dsi_dcs_write_buffer [0xf0, 0xa5, 0xa5])
  if env.seq_returns ∧ ret < 0 then
    return ret
  let ret ← call env (.mipi_dsi_dcs_set_page_address 0x0000 0x0923)
  if ret < 0 then
    return ret
  let ret ← call env (.mipi_dsi_dcs_write_buffer [0xf0, 0x5a, 0x5a])
  if env.seq_returns ∧ ret < 0 then
    return ret
  let ret ← call env (.mipi_dsi_dcs_write_buffer [0xfc, 0x5a, 0x5a])
  if env.seq_returns ∧ ret < 0 then
    return ret
  let ret ← call env (.mipi_dsi_dcs_write_buffer [0xb0, 0x23])
  if env.seq_returns ∧ ret < 0 then
    return ret
  let ret ← call env (.mipi_dsi_dcs_write_buffer [0xd1, 0x11])
  if env.seq_returns ∧ ret < 0 then
    return ret
  let ret ← call env (.mipi_dsi_dcs_write_buffer
    [0xe9, 0x11, 0x55, 0xa6, 0x75, 0xa3, 0xb9, 0xa1, 0x4a, 0x00, 0x1a, 0xb8])
  if env.seq_returns ∧ ret < 0 then
    return ret
  let ret ← call env (.mipi_dsi_dcs_write_buffer [0xe1, 0x00, 0x00, 0x02, 0x02, 0x42, 0x02])
  if env.seq_returns ∧ ret < 0 then
    return ret
  let ret ← call env (.mipi_dsi_dcs_write_buffer [0xe2, 0x00, 0x00, 0x00, 0x00, 0x00, 0x00])
  if env.seq_returns ∧ ret < 0 then
    return ret
  let ret ← call env (.mipi_dsi_dcs_write_buffer [0xb0, 0x0c])
  if env.seq_returns ∧ ret < 0 then
    return ret
  let ret ← call env (.mipi_dsi_dcs_write_buffer [0xe1, 0x19])
  if env.seq_returns ∧ ret < 0 then
    return ret
  let ret ← call env (.mipi_dsi_dcs_write_buffer [0xf0, 0xa5, 0xa5])
  if env.seq_returns ∧ ret < 0 then
    return ret
  let ret ← call env (.mipi_dsi_dcs_write_buffer [0xfc, 0xa5, 0xa5])
  if env.seq_returns ∧ ret < 0 then
    return ret
  let ret ← call env (.mipi_dsi_dcs_write_buffer [MIPI_DCS_WRITE_CONTROL_DISPLAY, 0x20])
  if env.seq_returns ∧ ret < 0 then
    return ret
  let ret ← call env (.mipi_dsi_dcs_set_display_brightness 0x0000)
  if ret < 0 then
    return ret
  let ret ← call env (.mipi_dsi_dcs_write_buffer [MIPI_DCS_WRITE_POWER_SAVE, 0x00])
  if env.seq_returns ∧ ret < 0 then
    return ret
  call_void (.msleep 67)
  let ret ← call env .mipi_dsi_dcs_set_display_on
  if ret < 0 then
    return ret
  return 0

/-- Source: `samsung_ea8076_f1mp_off`. -/
def samsung_ea8076_f1mp_off (env : Env) : StateM State Int := do
  let ret ← call env .mipi_dsi_dcs_set_display_off
  if ret < 0 then
    return ret
  let ret ← call env .mipi_dsi_dcs_enter_sleep_mode
  if ret < 0 then
    return ret
  call_void (.msleep 120)
  return 0

/-- Source: `samsung_ea8076_f1mp_prepare`. -/
def samsung_ea8076_f1mp_prepare (env : Env) : StateM State Int := do
  if (← get).prepared then
    return 0
  let ret ← call env .regulator_bulk_enable
  if ret < 0 then
    return ret
  samsung_ea8076_f1mp_reset
  let ret ← samsung_ea8076_f1mp_on env
  if ret < 0 then
    call_void (.gpiod_set_value_cansleep 1)
    let _ ← call env .regulator_bulk_disable
    return ret
  modify fun s => { s with prepared := true }
  return 0

/-- Source: `samsung_ea8076_f1mp_unprepare`. -/
def samsung_ea8076_f1mp_unprepare (env : Env) : StateM State Int := do
  if !(← get).prepared then
    return 0
  let _ ← samsung_ea8076_f1mp_off env
  call_void (.gpiod_set_value_cansleep 1)
  let _ ← call env .regulator_bulk_disable
  modify fun s => { s with prepared := false }
  return 0

/-! ## The fixed display mode and `get_modes` -/

/-- Modelled from the spec: `struct drm_display_mode` of `include/drm/drm_modes.h` (not among
the sources), with the fields that the driver initialises or that the DRM helpers it calls
fill in. -/
structure drm_display_mode where
  clock : Int
  hdisplay : Nat
  hsync_start : Nat
  hsync_end : Nat
  htotal : Nat
  vdisplay : Nat
  vsync_start : Nat
  vsync_end : Nat
  vtotal : Nat
  width_mm : Nat
  height_mm : Nat
  type : Nat
  name : String
  deriving DecidableEq, Repr

/-- Modelled from the spec: the physical size fields of `struct drm_display_info` of
`include/drm/drm_connector.h`, which is not among the sources. -/
structure drm_display_info where
  width_mm : Nat
  height_mm : Nat
  deriving DecidableEq, Repr

/-- Modelled from the spec: the parts of `struct drm_connector` of
`include/drm/drm_connector.h` (not among the sources) that `get_modes` touches. -/
structure drm_connector where
  display_info : drm_display_info
  probed_modes : List drm_display_mode
  deriving DecidableEq, Repr

/-- Reduction of an integer to the range of a 32-bit signed `int`. -/
def int32 (x : Int) : Int := (x + 2 ^ 31) % 2 ^ 32 - 2 ^ 31

/-- Source: the initialiser of `samsung_ea8076_f1mp_mode.clock`, evaluated in `int`. -/
def samsung_ea8076_f1mp_mode_clock : Int :=
  Int.tdiv (int32 (int32 (int32 (1080 + 64 + 20 + 64) * int32 (2340 + 64 + 27 + 64)) * 60)) 1000

/-- Source: `samsung_ea8076_f1mp_mode`.  Fields that the initialiser leaves out are zero. -/
def samsung_ea8076_f1mp_mode : drm_display_mode where
  clock := samsung_ea8076_f1mp_mode_clock
  hdisplay := 1080
  hsync_start := 1080 + 64
  hsync_end := 1080 + 64 + 20
  htotal := 1080 + 64 + 20 + 64
  vdisplay := 2340
  vsync_start := 2340 + 64
  vsync_end := 2340 + 64 + 27
  vtotal := 2340 + 64 + 27 + 64
  width_mm := 68
  height_mm := 147
  type := 0
  name := ""

/-- Modelled from the spec: the DRM helper `drm_mode_duplicate` of
`drivers/gpu/drm/drm_modes.c` (not among the sources), which returns a fresh copy of the mode,
or `NULL` when the allocation fails. -/
def drm_mode_duplicate (alloc_ok : Bool) (mode : drm_display_mode) : Option drm_display_mode :=
  if alloc_ok then some mode else none

/-- Modelled from the spec: the DRM helper `drm_mode_set_name` of
`drivers/gpu/drm/drm_modes.c` (not among the sources), which sets the name to
`<hdisplay>x<vdisplay>` (no mode of this driver is interlaced). -/
def drm_mode_set_name (mode : drm_display_mode) : drm_display_mode :=
  { mode with name := toString mode.hdisplay ++ "x" ++ toString mode.vdisplay }

/-- Modelled from the spec: the DRM helper `drm_mode_probed_add` of
`drivers/gpu/drm/drm_modes.c` (not among the sources), which puts the mode at the tail of the
list of probed modes of the connector. -/
def drm_mode_probed_add (connector : drm_connector) (mode : drm_display_mode) : drm_connector :=
  { connector with probed_modes := connector.probed_modes ++ [mode] }

/-- Source: `samsung_ea8076_f1mp_get_modes`.  The panel argument is not read. -/
def samsung_ea8076_f1mp_get_modes (alloc_ok : Bool) (_panel : State)
    (connector : drm_connector) : Int × drm_connector :=
  match drm_mode_duplicate alloc_ok samsung_ea8076_f1mp_mode with
  | none => (-ENOMEM, connector)
  | some mode =>
    let mode := drm_mode_set_name mode
    let mode := { mode with type := DRM_MODE_TYPE_DRIVER ||| DRM_MODE_TYPE_PREFERRED }
    let connector := { connector with
      display_info := { connector.display_info with width_mm := mode.width_mm } }
    let connector := { connector with
      display_info := { connector.display_info with height_mm := mode.height_mm } }
    let connector := drm_mode_probed_add connector mode
    (1, connector)

/-! ## Backlight callbacks -/

/-- Conversion of an `int` to `u16`. -/
def to_u16 (x : Int) : Nat := (x % 65536).toNat

/-- Source: `samsung_ea8076_f1mp_bl_update_status`.  `bl_brightness` is the value that
`backlight_get_brightness(bl)` returns. -/
def samsung_ea8076_f1mp_bl_update_status (env : Env) (bl_brightness : Int) :
    StateM State Int := do
  let brightness := to_u16 bl_brightness
  modify fun s => { s with mode_flags := s.mode_flags &&& (ULONG_MAX ^^^ MIPI_DSI_MODE_LPM) }
  let ret ← call env (.mipi_dsi_dcs_set_display_brightness_large brightness)
  if ret < 0 then
    return ret
  modify fun s => { s with mode_flags := s.mode_flags ||| MIPI_DSI_MODE_LPM }
  return 0

/-- Source: `samsung_ea8076_f1mp_bl_get_brightness`.  The payload of the read is the `u16`
stored through `&brightness`. -/
def samsung_ea8076_f1mp_bl_get_brightness (env : Env) : StateM State Int := do
  modify fun s => { s with mode_flags := s.mode_flags &&& (ULONG_MAX ^^^ MIPI_DSI_MODE_LPM) }
  let (ret, payload) ← call_read env .mipi_dsi_dcs_get_display_brightness_large
  let brightness := payload % 65536
  if ret < 0 then
    return ret
  modify fun s => { s with mode_flags := s.mode_flags ||| MIPI_DSI_MODE_LPM }
  return (brightness : Int)

/-! ## Probe and remove -/

/-- Source: `samsung_ea8076_f1mp_create_backlight`, with the brightness and the maximal
brightness of its `backlight_properties`. -/
def samsung_ea8076_f1mp_create_backlight (env : Env) : StateM State Int :=
  call env (.devm_backlight_device_register 1024 2047)

/-- Source: `samsung_ea8076_f1mp_probe`.  A pointer-returning call is recorded with a
negative value for `NULL` or `ERR_PTR`, so that `IS_ERR`/`PTR_ERR` read it back. -/
def samsung_ea8076_f1mp_probe (env : Env) : StateM State Int := do
  let ctx ← call env .devm_kzalloc
  if ctx < 0 then
    return -ENOMEM
  modify fun s => { s with prepared := false, prepare_prev_first := false }
  let ret ← call env (.devm_regulator_bulk_get ["vddio", "vcie", "vci"])
  if ret < 0 then
    return ret
  let reset_gpio ← call env (.devm_gpiod_get "reset" .GPIOD_OUT_HIGH)
  if reset_gpio < 0 then
    return reset_gpio
  call_void .mipi_dsi_set_drvdata
  modify fun s => { s with
    lanes := 4
    format := MIPI_DSI_FMT_RGB888
    mode_flags :=
      MIPI_DSI_MODE_VIDEO_BURST ||| MIPI_DSI_CLOCK_NON_CONTINUOUS ||| MIPI_DSI_MODE_LPM
    prepare_prev_first := true }
  call_void .drm_panel_init
  let backlight ← samsung_ea8076_f1mp_create_backlight env
  if backlight < 0 then
    return backlight
  call_void .drm_panel_add
  let ret ← call env .mipi_dsi_attach
  if ret < 0 then
    call_void .drm_panel_remove
    return ret
  return 0

/-- Modelled from the spec: `struct device_node` of `include/linux/of.h` (not among the
sources), a device-tree node identified by its path. -/
structure device_node where
  full_name : String
  deriving DecidableEq, Repr

/-- Source: the inline stub `of_get_named_gpio_flags`.  The pointer `flags` is `none` for
`NULL` and otherwise holds the pointed-to value; the second component of the result is the
pointed-to value after the call. -/
def of_get_named_gpio_flags (_np : Option device_node) (_list_name : String) (_index : Int)
    (flags : Option Nat) : Int × Option Nat :=
  let flags := match flags with
    | some _ => some 0
    | none => none
  (-ENOSYS, flags)

/-- Source: the inline stub `of_get_named_gpio`. -/
def of_get_named_gpio (_np : Option device_node) (_propname : String) (_index : Int) : Int :=
  -ENOSYS

/-! ## Observations on traces -/

/-- The operation is a delay (`usleep_range`, `msleep`), not an access to the hardware. -/
def Op.is_delay : Op → Bool
  | .usleep_range _ _ => true
  | .msleep _ => true
  | _ => false

/-- The operation is a command sent to the panel over DSI. -/
def Op.is_dsi : Op → Bool
  | .mipi_dsi_dcs_exit_sleep_mode => true
  | .mipi_dsi_dcs_enter_sleep_mode => true
  | .mipi_dsi_dcs_set_display_on => true
  | .mipi_dsi_dcs_set_display_off => true
  | .mipi_dsi_dcs_set_tear_on _ => true
  | .mipi_dsi_dcs_set_page_address _ _ => true
  | .mipi_dsi_dcs_set_display_brightness _ => true
  | .mipi_dsi_dcs_write_buffer _ => true
  | .mipi_dsi_dcs_set_display_brightness_large _ => true
  | .mipi_dsi_dcs_get_display_brightness_large => true
  | _ => false

/-- The operations of a trace, in the order they were issued. -/
def ops (t : List Event) : List Op := t.map Event.op

/-- The hardware operations of a trace: its operations without the delays. -/
def hw_ops (t : List Event) : List Op := (ops t).filter fun o => !o.is_delay

/-- The events recorded on the way from state `s` to state `s1`. -/
def issued (s s1 : State) : List Event := s1.trace.drop s.trace.length

/-- Contribution of one event to the regulator balance: a successful
`regulator_bulk_enable` counts `+1`, a `regulator_bulk_disable` counts `-1`. -/
def Event.regulator_delta (e : Event) : Int :=
  match e.op with
  | .regulator_bulk_enable => if e.ret < 0 then 0 else 1
  | .regulator_bulk_disable => -1
  | _ => 0

/-- Number of successful `regulator_bulk_enable` calls minus the number of
`regulator_bulk_disable` calls in a trace. -/
def regulator_balance (t : List Event) : Int := (t.map Event.regulator_delta).sum

/-- The value an event leaves on the reset line, when it drives the line: the value given
to `gpiod_set_value_cansleep`, or the initial value requested from a successful
`devm_gpiod_get`. -/
def Event.reset_drive (e : Event) : Option Int :=
  match e.op with
  | .gpiod_set_value_cansleep v => some v
  | .devm_gpiod_get _ .GPIOD_OUT_HIGH => if e.ret < 0 then none else some 1
  | .devm_gpiod_get _ .GPIOD_OUT_LOW => if e.ret < 0 then none else some 0
  | _ => none

/-- The logical value of the reset line after a trace: the last value driven, if any. -/
def reset_line (t : List Event) : Option Int := (t.filterMap Event.reset_drive).getLast?

/-- Every call succeeds in this environment. -/
def Env.all_succeed (env : Env) : Prop := ∀ k, 0 ≤ env.ret k

/-- An environment in which every call returns 0. -/
def Env.ok : Env := ⟨fun _ => 0, fun _ => 0, true⟩

/-- An environment in which the call recorded at position `k` returns `e` and every other
call returns 0. -/
def Env.fail_at (k : Nat) (e : Int) : Env := ⟨fun i => if i = k then e else 0, fun _ => 0, true⟩

/-- The state before the driver is bound to the device: nothing recorded, all fields zero. -/
def State.unbound : State := ⟨false, false, 0, 0, 0, []⟩

/-- The state `s` is one that a successful `samsung_ea8076_f1mp_probe` leaves behind, started
with nothing recorded. -/
def post_probe (s : State) : Prop :=
  ∃ env s0, s0.trace = [] ∧ (samsung_ea8076_f1mp_probe env).run s0 = (0, s)

/-- The state left by a probe in which every call returns 0. -/
def State.powered_off : State := ((samsung_ea8076_f1mp_probe Env.ok).run State.unbound).2

/-- The two power callbacks of `samsung_ea8076_f1mp_panel_funcs`. -/
inductive PanelCall where
  | prepare
  | unprepare
  deriving DecidableEq, Repr

/-- The driver function behind a callback. -/
def PanelCall.exec (env : Env) : PanelCall → StateM State Int
  | .prepare => samsung_ea8076_f1mp_prepare env
  | .unprepare => samsung_ea8076_f1mp_unprepare env

/-- The state after a sequence of callbacks, made one after the other. -/
def run_calls (env : Env) (s : State) : List PanelCall → State
  | [] => s
  | c :: cs => run_calls env ((c.exec env).run s).2 cs

/-- A run of panel commands: the state changes only by events appended to the trace, all of
them DSI commands or delays, and the result is either 0 or the negative value returned by the
last command issued. -/
def PanelRun (m : StateM State Int) : Prop :=
  ∀ s, ∃ ext, (m.run s).2 = { s with trace := s.trace ++ ext } ∧
    (∀ e ∈ ext, e.op.is_dsi = true ∨ e.op.is_delay = true) ∧
    ((m.run s).1 = 0 ∨ ((m.run s).1 < 0 ∧
      ∃ pre e, ext = pre ++ [e] ∧ e.ret = (m.run s).1 ∧ e.op.is_dsi = true))

/-- A run of panel commands in which every command succeeds issues exactly the operations
`l` and returns 0. -/
def OkRun (m : StateM State Int) (l : List Op) : Prop :=
  ∀ s, ∃ ext, m.run s = (0, { s with trace := s.trace ++ ext }) ∧ ops ext = l

/-- The events of the reset pulse. -/
def reset_pulse : List Event :=
  [⟨.gpiod_set_value_cansleep 1, 0⟩, ⟨.usleep_range 1000 2000, 0⟩,
   ⟨.gpiod_set_value_cansleep 0, 0⟩, ⟨.usleep_range 10000 11000, 0⟩]

/-- The events of a probe that reaches `mipi_dsi_attach`. -/
def probe_events (a b c d e : Int) : List Event :=
  [⟨.devm_kzalloc, a⟩, ⟨.devm_regulator_bulk_get ["vddio", "vcie", "vci"], b⟩,
   ⟨.devm_gpiod_get "reset" .GPIOD_OUT_HIGH, c⟩, ⟨.mipi_dsi_set_drvdata, 0⟩,
   ⟨.drm_panel_init, 0⟩, ⟨.devm_backlight_device_register 1024 2047, d⟩,
   ⟨.drm_panel_add, 0⟩, ⟨.mipi_dsi_attach, e⟩]

/-- The regulator balance agrees with the `prepared` flag. -/
def balanced (s : State) : Prop :=
  regulator_balance s.trace = if s.prepared = true then 1 else 0

theorem panelRun_pure_zero : PanelRun (pure 0) := by
  intro s
  exact ⟨[], by simp [StateT.run, pure, StateT.pure], by simp, Or.inl rfl⟩

theorem panelRun_void (op : Op) (k : StateM State Int) (hop : op.is_delay = true)
    (hk : PanelRun k) : PanelRun (call_void op >>= fun _ => k) := by
  intro s
  obtain ⟨ext, h1, h2, h3⟩ := hk { s with trace := s.trace ++ [⟨op, 0⟩] }
  refine ⟨⟨op, 0⟩ :: ext, ?_, ?_, ?_⟩
  · simpa [StateT.run, bind, StateT.bind, call_void] using h1
  · intro e he
    rcases List.mem_cons.mp he with rfl | he
    · exact Or.inr hop
    · exact h2 e he
  · rcases h3 with h3 | ⟨h3, pre, e, he, hr, hd⟩
    · exact Or.inl (by simpa [StateT.run, bind, StateT.bind, call_void] using h3)
    · refine Or.inr ⟨by simpa [StateT.run, bind, StateT.bind, call_void] using h3,
        ⟨op, 0⟩ :: pre, e, by simp [he], ?_, hd⟩
      simpa [StateT.run, bind, StateT.bind, call_void] using hr

theorem panelRun_guard (env : Env) (op : Op) (c : Int → Prop) [DecidablePred c]
    (k : StateM State Int) (hop : op.is_dsi = true) (hc : ∀ r, c r → r < 0)
    (hk : PanelRun k) :
    PanelRun (call env op >>= fun ret => if c ret then pure ret else k) := by
  intro s
  by_cases hr : c (env.ret s.trace.length)
  · refine ⟨[⟨op, env.ret s.trace.length⟩], ?_, ?_, ?_⟩
    · simp [StateT.run, bind, StateT.bind, call, hr, pure, StateT.pure]
    · simpa using Or.inl hop
    · refine Or.inr ⟨?_, [], ⟨op, env.ret s.trace.length⟩, rfl, ?_, hop⟩
      · simpa [StateT.run, bind, StateT.bind, call, hr, pure, StateT.pure] using hc _ hr
      · simp [StateT.run, bind, StateT.bind, call, hr, pure, StateT.pure]
  · obtain ⟨ext, h1, h2, h3⟩ :=
      hk { s with trace := s.trace ++ [⟨op, env.ret s.trace.length⟩] }
    refine ⟨⟨op, env.ret s.trace.length⟩ :: ext, ?_, ?_, ?_⟩
    · simpa [StateT.run, bind, StateT.bind, call, hr] using h1
    · intro e he
      rcases List.mem_cons.mp he with rfl | he
      · exact Or.inl hop
      · exact h2 e he
    · rcases h3 with h3 | ⟨h3, pre, e, he, hr1, hd⟩
      · exact Or.inl (by simpa [StateT.run, bind, StateT.bind, call, hr] using h3)
      · refine Or.inr ⟨by simpa [StateT.run, bind, StateT.bind, call, hr] using h3,
          ⟨op, env.ret s.trace.length⟩ :: pre, e, by simp [he], ?_, hd⟩
        simpa [StateT.run, bind, StateT.bind, call, hr] using hr1

theorem panelRun_on (env : Env) : PanelRun (samsung_ea8076_f1mp_on env) := by
  simp only [samsung_ea8076_f1mp_on, pure_bind]
  repeat first
    | exact panelRun_pure_zero
    | apply panelRun_void _ _ (by rfl)
    | apply panelRun_guard env _ (fun r => r < 0) _ (by rfl) (fun _ h => h)
    | apply panelRun_guard env _ (fun r => env.seq_returns = true ∧ r < 0) _ (by rfl)
        (fun _ h => h.2)

theorem panelRun_off (env : Env) : PanelRun (samsung_ea8076_f1mp_off env) := by
  simp only [samsung_ea8076_f1mp_off, pure_bind]
  repeat first
    | exact panelRun_pure_zero
    | apply panelRun_void _ _ (by rfl)
    | apply panelRun_guard env _ (fun r => r < 0) _ (by rfl) (fun _ h => h)

theorem okRun_pure_zero : OkRun (pure 0) [] := by
  intro s
  exact ⟨[], by simp [StateT.run, pure, StateT.pure], rfl⟩

theorem okRun_void (op : Op) (k : StateM State Int) (l : List Op) (hk : OkRun k l) :
    OkRun (call_void op >>= fun _ => k) (op :: l) := by
  intro s
  obtain ⟨ext, h1, h2⟩ := hk { s with trace := s.trace ++ [⟨op, 0⟩] }
  refine ⟨⟨op, 0⟩ :: ext, ?_, by simp [ops] at h2 ⊢; exact h2⟩
  simpa [StateT.run, bind, StateT.bind, call_void] using h1

theorem okRun_guard (env : Env) (h : env.all_succeed) (op : Op) (c : Int → Prop)
    [DecidablePred c] (k : StateM State Int) (l : List Op) (hc : ∀ r, c r → r < 0)
    (hk : OkRun k l) :
    OkRun (call env op >>= fun ret => if c ret then pure ret else k) (op :: l) := by
  intro s
  have hr : ¬ c (env.ret s.trace.length) := fun hcr => absurd (hc _ hcr) (not_lt.mpr (h _))
  obtain ⟨ext, h1, h2⟩ := hk { s with trace := s.trace ++ [⟨op, env.ret s.trace.length⟩] }
  refine ⟨⟨op, env.ret s.trace.length⟩ :: ext, ?_, by simp [ops] at h2 ⊢; exact h2⟩
  simpa [StateT.run, bind, StateT.bind, call, hr] using h1

theorem okRun_on (env : Env) (h : env.all_succeed) :
    OkRun (samsung_ea8076_f1mp_on env)
      [.mipi_dsi_dcs_exit_sleep_mode,
       .usleep_range 10000 11000,
       .mipi_dsi_dcs_write_buffer [0xf0, 0x5a, 0x5a],
       .mipi_dsi_dcs_set_tear_on .MIPI_DSI_DCS_TEAR_MODE_VBLANK,
       .mipi_dsi_dcs_write_buffer [0xb7, 0x01, 0x4b],
       .mipi_dsi_dcs_write_buffer [0xf0, 0xa5, 0xa5],
       .mipi_dsi_dcs_set_page_address 0x0000 0x0923,
       .mipi_dsi_dcs_write_buffer [0xf0, 0x5a, 0x5a],
       .mipi_dsi_dcs_write_buffer [0xfc, 0x5a, 0x5a],
       .mipi_dsi_dcs_write_buffer [0xb0, 0x23],
       .mipi_dsi_dcs_write_buffer [0xd1, 0x11],
       .mipi_dsi_dcs_write_buffer
         [0xe9, 0x11, 0x55, 0xa6, 0x75, 0xa3, 0xb9, 0xa1, 0x4a, 0x00, 0x1a, 0xb8],
       .mipi_dsi_dcs_write_buffer [0xe1, 0x00, 0x00, 0x02, 0x02, 0x42, 0x02],
       .mipi_dsi_dcs_write_buffer [0xe2, 0x00, 0x00, 0x00, 0x00, 0x00, 0x00],
       .mipi_dsi_dcs_write_buffer [0xb0, 0x0c],
       .mipi_dsi_dcs_write_buffer [0xe1, 0x19],
       .mipi_dsi_dcs_write_buffer [0xf0, 0xa5, 0xa5],
       .mipi_dsi_dcs_write_buffer [0xfc, 0xa5, 0xa5],
       .mipi_dsi_dcs_write_buffer [MIPI_DCS_WRITE_CONTROL_DISPLAY, 0x20],
       .mipi_dsi_dcs_set_display_brightness 0x0000,
       .mipi_dsi_dcs_write_buffer [MIPI_DCS_WRITE_POWER_SAVE, 0x00],
       .msleep 67,
       .mipi_dsi_dcs_set_display_on] := by
  simp only [samsung_ea8076_f1mp_on, pure_bind]
  repeat first
    | exact okRun_pure_zero
    | apply okRun_void
    | apply okRun_guard env h _ (fun r => r < 0) _ _ (fun _ h => h)
    | apply okRun_guard env h _ (fun r => env.seq_returns = true ∧ r < 0) _ _ (fun _ h => h.2)

theorem okRun_off (env : Env) (h : env.all_succeed) :
    OkRun (samsung_ea8076_f1mp_off env)
      [.mipi_dsi_dcs_set_display_off, .mipi_dsi_dcs_enter_sleep_mode, .msleep 120] := by
  simp only [samsung_ea8076_f1mp_off, pure_bind]
  repeat first
    | exact okRun_pure_zero
    | apply okRun_void
    | apply okRun_guard env h _ (fun r => r < 0) _ _ (fun _ h => h)

/-! ## The two panel callbacks as equations over the state -/

@[simp] theorem call_run (env : Env) (op : Op) (s : State) :
    (call env op).run s =
      (env.ret s.trace.length, { s with trace := s.trace ++ [⟨op, env.ret s.trace.length⟩] }) :=
  rfl

@[simp] theorem call_read_run (env : Env) (op : Op) (s : State) :
    (call_read env op).run s =
      ((env.ret s.trace.length, env.rd s.trace.length),
        { s with trace := s.trace ++ [⟨op, env.ret s.trace.length⟩] }) :=
  rfl

@[simp] theorem call_void_run (op : Op) (s : State) :
    (call_void op).run s = ((), { s with trace := s.trace ++ [⟨op, 0⟩] }) :=
  rfl

theorem prepare_run (env : Env) (s : State) :
    (samsung_ea8076_f1mp_prepare env).run s =
      if s.prepared = true then (0, s)
      else if env.ret s.trace.length < 0 then
        (env.ret s.trace.length,
          { s with trace := s.trace ++ [⟨.regulator_bulk_enable, env.ret s.trace.length⟩] })
      else
        let r := (samsung_ea8076_f1mp_on env).run
          { s with trace := s.trace ++
            [⟨.regulator_bulk_enable, env.ret s.trace.length⟩,
             ⟨.gpiod_set_value_cansleep 1, 0⟩, ⟨.usleep_range 1000 2000, 0⟩,
             ⟨.gpiod_set_value_cansleep 0, 0⟩, ⟨.usleep_range 10000 11000, 0⟩] }
        if r.1 < 0 then
          (r.1, { r.2 with trace := r.2.trace ++
            [⟨.gpiod_set_value_cansleep 1, 0⟩,
             ⟨.regulator_bulk_disable, env.ret (r.2.trace.length + 1)⟩] })
        else (0, { r.2 with prepared := true }) := by
  obtain ⟨p, ppf, lanes, format, flags, tr⟩ := s
  cases p
  · by_cases h1 : env.ret tr.length < 0
    · simp [samsung_ea8076_f1mp_prepare, h1]
    · by_cases h2 : ((samsung_ea8076_f1mp_on env).run
          ⟨false, ppf, lanes, format, flags, tr ++
            [⟨.regulator_bulk_enable, env.ret tr.length⟩,
             ⟨.gpiod_set_value_cansleep 1, 0⟩, ⟨.usleep_range 1000 2000, 0⟩,
             ⟨.gpiod_set_value_cansleep 0, 0⟩, ⟨.usleep_range 10000 11000, 0⟩]⟩).1 < 0
      · simp [samsung_ea8076_f1mp_prepare, samsung_ea8076_f1mp_reset, h1, h2]
      · simp [samsung_ea8076_f1mp_prepare, samsung_ea8076_f1mp_reset, h1, h2]
  · simp [samsung_ea8076_f1mp_prepare]

theorem unprepare_run (env : Env) (s : State) :
    (samsung_ea8076_f1mp_unprepare env).run s =
      if s.prepared = true then
        let r := (samsung_ea8076_f1mp_off env).run s
        (0, { r.2 with
          prepared := false
          trace := r.2.trace ++
            [⟨.gpiod_set_value_cansleep 1, 0⟩,
             ⟨.regulator_bulk_disable, env.ret (r.2.trace.length + 1)⟩] })
      else (0, s) := by
  by_cases hp : s.prepared = true
  · simp [samsung_ea8076_f1mp_unprepare, hp]
  · simp [samsung_ea8076_f1mp_unprepare, hp]

/-! ## Lemmas on the trace observations -/

theorem issued_append (s s1 : State) (ext : List Event) (h : s1.trace = s.trace ++ ext) :
    issued s s1 = ext := by
  simp [issued, h]

theorem ops_append (a b : List Event) : ops (a ++ b) = ops a ++ ops b := by
  simp [ops]

theorem regulator_balance_append (a b : List Event) :
    regulator_balance (a ++ b) = regulator_balance a + regulator_balance b := by
  simp [regulator_balance]

theorem regulator_delta_panel (e : Event) (h : e.op.is_dsi = true ∨ e.op.is_delay = true) :
    e.regulator_delta = 0 := by
  obtain ⟨op, r⟩ := e
  cases op <;> simp_all [Event.regulator_delta, Op.is_dsi, Op.is_delay]

theorem regulator_balance_panel (ext : List Event)
    (h : ∀ e ∈ ext, e.op.is_dsi = true ∨ e.op.is_delay = true) :
    regulator_balance ext = 0 := by
  induction ext with
  | nil => rfl
  | cons e l ih =>
    have he := regulator_delta_panel e (h e (List.mem_cons_self _ _))
    have hl := ih fun x hx => h x (List.mem_cons_of_mem _ hx)
    simp only [regulator_balance, List.map_cons, List.sum_cons] at hl ⊢
    omega

theorem reset_drive_panel (e : Event) (h : e.op.is_dsi = true ∨ e.op.is_delay = true) :
    e.reset_drive = none := by
  obtain ⟨op, r⟩ := e
  cases op <;> simp_all [Event.reset_drive, Op.is_dsi, Op.is_delay]

theorem filterMap_reset_drive_panel (ext : List Event)
    (h : ∀ e ∈ ext, e.op.is_dsi = true ∨ e.op.is_delay = true) :
    ext.filterMap Event.reset_drive = [] := by
  induction ext with
  | nil => rfl
  | cons e l ih =>
    rw [List.filterMap_cons, reset_drive_panel e (h e (List.mem_cons_self _ _))]
    exact ih fun x hx => h x (List.mem_cons_of_mem _ hx)

/-! ## What the two panel callbacks do, for every environment -/

theorem prepare_spec (env : Env) (s : State) (hs : s.prepared = false) :
    (env.ret s.trace.length < 0 ∧
      (samsung_ea8076_f1mp_prepare env).run s =
        (env.ret s.trace.length,
          { s with trace := s.trace ++ [⟨.regulator_bulk_enable, env.ret s.trace.length⟩] })) ∨
    (0 ≤ env.ret s.trace.length ∧ ∃ ext fail x,
      (∀ e ∈ ext, e.op.is_dsi = true ∨ e.op.is_delay = true) ∧
      fail.op.is_dsi = true ∧ fail.ret < 0 ∧
      (samsung_ea8076_f1mp_prepare env).run s =
        (fail.ret, { s with trace := s.trace ++
          (⟨.regulator_bulk_enable, env.ret s.trace.length⟩ :: reset_pulse ++ ext ++
            [fail, ⟨.gpiod_set_value_cansleep 1, 0⟩, ⟨.regulator_bulk_disable, x⟩]) })) ∨
    (0 ≤ env.ret s.trace.length ∧ ∃ ext,
      (∀ e ∈ ext, e.op.is_dsi = true ∨ e.op.is_delay = true) ∧
      (samsung_ea8076_f1mp_prepare env).run s =
        (0, { s with
          prepared := true
          trace := s.trace ++
            (⟨.regulator_bulk_enable, env.ret s.trace.length⟩ :: reset_pulse ++ ext) })) := by
  obtain ⟨p, ppf, lanes, format, flags, tr⟩ := s
  simp only at hs
  subst hs
  rw [prepare_run]
  simp only [Bool.false_eq_true, if_false]
  by_cases h1 : env.ret tr.length < 0
  · exact Or.inl ⟨h1, by simp [h1]⟩
  · right
    simp only [if_neg h1]
    obtain ⟨ext, e1, e2, e3⟩ := panelRun_on env
      ⟨false, ppf, lanes, format, flags, tr ++
        [⟨.regulator_bulk_enable, env.ret tr.length⟩,
         ⟨.gpiod_set_value_cansleep 1, 0⟩, ⟨.usleep_range 1000 2000, 0⟩,
         ⟨.gpiod_set_value_cansleep 0, 0⟩, ⟨.usleep_range 10000 11000, 0⟩]⟩
    rcases e3 with e3 | ⟨e3, pre, fail, hext, hret, hdsi⟩
    · right
      refine ⟨not_lt.mp h1, ext, e2, ?_⟩
      simp [e1, e3, reset_pulse]
    · left
      refine ⟨not_lt.mp h1, pre, fail, env.ret (((samsung_ea8076_f1mp_on env).run
        ⟨false, ppf, lanes, format, flags, tr ++
          [⟨.regulator_bulk_enable, env.ret tr.length⟩,
           ⟨.gpiod_set_value_cansleep 1, 0⟩, ⟨.usleep_range 1000 2000, 0⟩,
           ⟨.gpiod_set_value_cansleep 0, 0⟩, ⟨.usleep_range 10000 11000, 0⟩]⟩).2.trace.length + 1),
        ?_, hdsi, hret ▸ e3, ?_⟩
      · intro e he
        exact e2 e (by simp [hext, he])
      · simp only [e1, e3, if_true, hret, hext, reset_pulse]
        simp

theorem unprepare_spec (env : Env) (s : State) (hs : s.prepared = true) :
    ∃ ext x, (∀ e ∈ ext, e.op.is_dsi = true ∨ e.op.is_delay = true) ∧
      (samsung_ea8076_f1mp_unprepare env).run s =
        (0, { s with
          prepared := false
          trace := s.trace ++
            (ext ++ [⟨.gpiod_set_value_cansleep 1, 0⟩, ⟨.regulator_bulk_disable, x⟩]) }) := by
  obtain ⟨ext, e1, e2, _⟩ := panelRun_off env s
  refine ⟨ext, env.ret (((samsung_ea8076_f1mp_off env).run s).2.trace.length + 1), e2, ?_⟩
  rw [unprepare_run]
  simp only [hs, if_true, e1]
  simp

theorem prepare_ok (env : Env) (s : State) (hs : s.prepared = false) (h : env.all_succeed) :
    ∃ ext, ops ext =
        [.mipi_dsi_dcs_exit_sleep_mode,
         .usleep_range 10000 11000,
         .mipi_dsi_dcs_write_buffer [0xf0, 0x5a, 0x5a],
         .mipi_dsi_dcs_set_tear_on .MIPI_DSI_DCS_TEAR_MODE_VBLANK,
         .mipi_dsi_dcs_write_buffer [0xb7, 0x01, 0x4b],
         .mipi_dsi_dcs_write_buffer [0xf0, 0xa5, 0xa5],
         .mipi_dsi_dcs_set_page_address 0x0000 0x0923,
         .mipi_dsi_dcs_write_buffer [0xf0, 0x5a, 0x5a],
         .mipi_dsi_dcs_write_buffer [0xfc, 0x5a, 0x5a],
         .mipi_dsi_dcs_write_buffer [0xb0, 0x23],
         .mipi_dsi_dcs_write_buffer [0xd1, 0x11],
         .mipi_dsi_dcs_write_buffer
           [0xe9, 0x11, 0x55, 0xa6, 0x75, 0xa3, 0xb9, 0xa1, 0x4a, 0x00, 0x1a, 0xb8],
         .mipi_dsi_dcs_write_buffer [0xe1, 0x00, 0x00, 0x02, 0x02, 0x42, 0x02],
         .mipi_dsi_dcs_write_buffer [0xe2, 0x00, 0x00, 0x00, 0x00, 0x00, 0x00],
         .mipi_dsi_dcs_write_buffer [0xb0, 0x0c],
         .mipi_dsi_dcs_write_buffer [0xe1, 0x19],
         .mipi_dsi_dcs_write_buffer [0xf0, 0xa5, 0xa5],
         .mipi_dsi_dcs_write_buffer [0xfc, 0xa5, 0xa5],
         .mipi_dsi_dcs_write_buffer [MIPI_DCS_WRITE_CONTROL_DISPLAY, 0x20],
         .mipi_dsi_dcs_set_display_brightness 0x0000,
         .mipi_dsi_dcs_write_buffer [MIPI_DCS_WRITE_POWER_SAVE, 0x00],
         .msleep 67,
         .mipi_dsi_dcs_set_display_on] ∧
      (samsung_ea8076_f1mp_prepare env).run s =
        (0, { s with
          prepared := true
          trace := s.trace ++
            (⟨.regulator_bulk_enable, env.ret s.trace.length⟩ :: reset_pulse ++ ext) }) := by
  obtain ⟨p, ppf, lanes, format, flags, tr⟩ := s
  simp only at hs
  subst hs
  obtain ⟨ext, h1, h2⟩ := okRun_on env h
    ⟨false, ppf, lanes, format, flags, tr ++
      [⟨.regulator_bulk_enable, env.ret tr.length⟩,
       ⟨.gpiod_set_value_cansleep 1, 0⟩, ⟨.usleep_range 1000 2000, 0⟩,
       ⟨.gpiod_set_value_cansleep 0, 0⟩, ⟨.usleep_range 10000 11000, 0⟩]⟩
  refine ⟨ext, h2, ?_⟩
  rw [prepare_run]
  simp only [Bool.false_eq_true, if_false, if_neg (not_lt.mpr (h _)), h1, lt_irrefl, reset_pulse]
  simp

theorem unprepare_ok (env : Env) (s : State) (hs : s.prepared = true) (h : env.all_succeed) :
    ∃ ext x, ops ext =
        [.mipi_dsi_dcs_set_display_off, .mipi_dsi_dcs_enter_sleep_mode, .msleep 120] ∧
      (samsung_ea8076_f1mp_unprepare env).run s =
        (0, { s with
          prepared := false
          trace := s.trace ++
            (ext ++ [⟨.gpiod_set_value_cansleep 1, 0⟩, ⟨.regulator_bulk_disable, x⟩]) }) := by
  obtain ⟨ext, h1, h2⟩ := okRun_off env h s
  refine ⟨ext, env.ret (((samsung_ea8076_f1mp_off env).run s).2.trace.length + 1), h2, ?_⟩
  rw [unprepare_run]
  simp only [hs, if_true, h1]
  simp

theorem run_ite {α : Type} (c : Prop) [Decidable c] (a b : StateM State α) (s : State) :
    (if c then a else b).run s = if c then a.run s else b.run s := by
  split <;> rfl

theorem probe_run (env : Env) (s : State) :
    (samsung_ea8076_f1mp_probe env).run s =
      if env.ret s.trace.length < 0 then
        (-ENOMEM, { s with trace := s.trace ++ [⟨.devm_kzalloc, env.ret s.trace.length⟩] })
      else if env.ret (s.trace.length + 1) < 0 then
        (env.ret (s.trace.length + 1),
          { s with
            prepared := false
            prepare_prev_first := false
            trace := s.trace ++
              [⟨.devm_kzalloc, env.ret s.trace.length⟩,
               ⟨.devm_regulator_bulk_get ["vddio", "vcie", "vci"],
                 env.ret (s.trace.length + 1)⟩] })
      else if env.ret (s.trace.length + 2) < 0 then
        (env.ret (s.trace.length + 2),
          { s with
            prepared := false
            prepare_prev_first := false
            trace := s.trace ++
              [⟨.devm_kzalloc, env.ret s.trace.length⟩,
               ⟨.devm_regulator_bulk_get ["vddio", "vcie", "vci"],
                 env.ret (s.trace.length + 1)⟩,
               ⟨.devm_gpiod_get "reset" .GPIOD_OUT_HIGH, env.ret (s.trace.length + 2)⟩] })
      else if env.ret (s.trace.length + 5) < 0 then
        (env.ret (s.trace.length + 5),
          ⟨false, true, 4, MIPI_DSI_FMT_RGB888,
            MIPI_DSI_MODE_VIDEO_BURST ||| MIPI_DSI_CLOCK_NON_CONTINUOUS ||| MIPI_DSI_MODE_LPM,
            s.trace ++
              [⟨.devm_kzalloc, env.ret s.trace.length⟩,
               ⟨.devm_regulator_bulk_get ["vddio", "vcie", "vci"],
                 env.ret (s.trace.length + 1)⟩,
               ⟨.devm_gpiod_get "reset" .GPIOD_OUT_HIGH, env.ret (s.trace.length + 2)⟩,
               ⟨.mipi_dsi_set_drvdata, 0⟩, ⟨.drm_panel_init, 0⟩,
               ⟨.devm_backlight_device_register 1024 2047, env.ret (s.trace.length + 5)⟩]⟩)
      else if env.ret (s.trace.length + 7) < 0 then
        (env.ret (s.trace.length + 7),
          ⟨false, true, 4, MIPI_DSI_FMT_RGB888,
            MIPI_DSI_MODE_VIDEO_BURST ||| MIPI_DSI_CLOCK_NON_CONTINUOUS ||| MIPI_DSI_MODE_LPM,
            s.trace ++ (probe_events (env.ret s.trace.length)
              (env.ret (s.trace.length + 1)) (env.ret (s.trace.length + 2))
              (env.ret (s.trace.length + 5)) (env.ret (s.trace.length + 7)) ++
              [⟨.drm_panel_remove, 0⟩])⟩)
      else
        (0,
          ⟨false, true, 4, MIPI_DSI_FMT_RGB888,
            MIPI_DSI_MODE_VIDEO_BURST ||| MIPI_DSI_CLOCK_NON_CONTINUOUS ||| MIPI_DSI_MODE_LPM,
            s.trace ++ probe_events (env.ret s.trace.length)
              (env.ret (s.trace.length + 1)) (env.ret (s.trace.length + 2))
              (env.ret (s.trace.length + 5)) (env.ret (s.trace.length + 7))⟩) := by
  by_cases c1 : env.ret s.trace.length < 0
  · simp [samsung_ea8076_f1mp_probe, samsung_ea8076_f1mp_create_backlight, run_ite, c1]
  by_cases c2 : env.ret (s.trace.length + 1) < 0
  · simp [samsung_ea8076_f1mp_probe, samsung_ea8076_f1mp_create_backlight, run_ite, c1, c2]
  by_cases c3 : env.ret (s.trace.length + 2) < 0
  · simp [samsung_ea8076_f1mp_probe, samsung_ea8076_f1mp_create_backlight, run_ite, c1, c2, c3, Nat.add_assoc]
  by_cases c4 : env.ret (s.trace.length + 5) < 0
  · simp [samsung_ea8076_f1mp_probe, samsung_ea8076_f1mp_create_backlight, run_ite, c1, c2, c3, c4, Nat.add_assoc]
  by_cases c5 : env.ret (s.trace.length + 7) < 0
  · simp [samsung_ea8076_f1mp_probe, samsung_ea8076_f1mp_create_backlight, run_ite, c1, c2, c3, c4, c5, probe_events, Nat.add_assoc]
  · simp [samsung_ea8076_f1mp_probe, samsung_ea8076_f1mp_create_backlight, run_ite, c1, c2, c3, c4, c5, probe_events, Nat.add_assoc]

theorem post_probe_eq (s : State) (h : post_probe s) :
    ∃ a b c d e : Int, 0 ≤ a ∧ 0 ≤ b ∧ 0 ≤ c ∧ 0 ≤ d ∧ 0 ≤ e ∧
      s = ⟨false, true, 4, MIPI_DSI_FMT_RGB888,
        MIPI_DSI_MODE_VIDEO_BURST ||| MIPI_DSI_CLOCK_NON_CONTINUOUS ||| MIPI_DSI_MODE_LPM,
        probe_events a b c d e⟩ := by
  obtain ⟨env, s0, h0, h1⟩ := h
  rw [probe_run] at h1
  simp only [h0, List.length_nil, Nat.zero_add, List.nil_append] at h1
  have hne : (-ENOMEM : Int) ≠ 0 := by decide
  split_ifs at h1 with c1 c2 c3 c4 c5
  · exact absurd (congrArg Prod.fst h1) hne
  · exact absurd (congrArg Prod.fst h1) (ne_of_lt c2)
  · exact absurd (congrArg Prod.fst h1) (ne_of_lt c3)
  · exact absurd (congrArg Prod.fst h1) (ne_of_lt c4)
  · exact absurd (congrArg Prod.fst h1) (ne_of_lt c5)
  · exact ⟨_, _, _, _, _, not_lt.mp c1, not_lt.mp c2, not_lt.mp c3, not_lt.mp c4,
      not_lt.mp c5, (congrArg Prod.snd h1).symm⟩

theorem regulator_balance_cons (e : Event) (l : List Event) :
    regulator_balance (e :: l) = e.regulator_delta + regulator_balance l := by
  simp [regulator_balance]

theorem regulator_balance_probe_events (a b c d e : Int) :
    regulator_balance (probe_events a b c d e) = 0 := by
  simp [regulator_balance, probe_events, Event.regulator_delta]

theorem reset_line_probe_events (a b c d e : Int) (hc : 0 ≤ c) :
    reset_line (probe_events a b c d e) = some 1 := by
  simp [reset_line, probe_events, Event.reset_drive, not_lt.mpr hc]

theorem post_probe_powered_off : post_probe State.powered_off :=
  ⟨Env.ok, State.unbound, rfl, rfl⟩

theorem balanced_post_probe (s : State) (h : post_probe s) : balanced s := by
  obtain ⟨a, b, c, d, e, -, -, -, -, -, rfl⟩ := post_probe_eq s h
  simp [balanced, regulator_balance_probe_events]

theorem regulator_balance_nil : regulator_balance [] = 0 := rfl

theorem regulator_delta_enable (r : Int) :
    Event.regulator_delta ⟨.regulator_bulk_enable, r⟩ = if r < 0 then 0 else 1 := rfl

theorem regulator_delta_disable (r : Int) :
    Event.regulator_delta ⟨.regulator_bulk_disable, r⟩ = -1 := rfl

theorem regulator_delta_gpiod (v r : Int) :
    Event.regulator_delta ⟨.gpiod_set_value_cansleep v, r⟩ = 0 := rfl

theorem regulator_balance_reset_pulse : regulator_balance reset_pulse = 0 := by
  simp [regulator_balance, reset_pulse, Event.regulator_delta]

theorem balanced_prepare (env : Env) (s : State) (h : balanced s) :
    balanced ((samsung_ea8076_f1mp_prepare env).run s).2 := by
  cases hs : s.prepared
  · simp only [balanced, hs, Bool.false_eq_true, if_false] at h
    rcases prepare_spec env s hs with ⟨hlt, heq⟩ | ⟨hge, ext, fail, x, hext, hdsi, hneg, heq⟩ |
      ⟨hge, ext, hext, heq⟩
    · rw [heq]
      simp [balanced, hs, regulator_balance_append, regulator_balance_cons, h,
        regulator_delta_enable, hlt, regulator_balance_nil]
    · rw [heq]
      simp [balanced, hs, regulator_balance_append, regulator_balance_cons, h,
        regulator_delta_enable, regulator_delta_disable, regulator_delta_gpiod,
        not_lt.mpr hge, regulator_balance_panel ext hext,
        regulator_delta_panel fail (Or.inl hdsi), regulator_balance_reset_pulse,
        regulator_balance_nil]
    · rw [heq]
      simp [balanced, regulator_balance_append, regulator_balance_cons, h,
        regulator_delta_enable, not_lt.mpr hge, regulator_balance_panel ext hext,
        regulator_balance_reset_pulse]
  · rw [prepare_run]
    simpa [hs] using h

theorem balanced_unprepare (env : Env) (s : State) (h : balanced s) :
    balanced ((samsung_ea8076_f1mp_unprepare env).run s).2 := by
  cases hs : s.prepared
  · rw [unprepare_run]
    simpa [hs] using h
  · simp only [balanced, hs, if_true] at h
    obtain ⟨ext, x, hext, heq⟩ := unprepare_spec env s hs
    rw [heq]
    simp [balanced, regulator_balance_append, regulator_balance_cons, h,
      regulator_delta_disable, regulator_delta_gpiod, regulator_balance_panel ext hext,
      regulator_balance_nil]

theorem balanced_run_calls (env : Env) (calls : List PanelCall) :
    ∀ s, balanced s → balanced (run_calls env s calls) := by
  induction calls with
  | nil => exact fun s h => h
  | cons c cs ih =>
    intro s h
    cases c
    · exact ih _ (balanced_prepare env s h)
    · exact ih _ (balanced_unprepare env s h)

theorem reset_line_after_prepare (t ext : List Event) (r : Int)
    (h : ∀ e ∈ ext, e.op.is_dsi = true ∨ e.op.is_delay = true) :
    reset_line (t ++ (⟨.regulator_bulk_enable, r⟩ :: reset_pulse ++ ext)) = some 0 := by
  simp [reset_line, List.filterMap_append, filterMap_reset_drive_panel ext h, reset_pulse,
    Event.reset_drive, List.getLast?_append]

theorem reset_line_after_unprepare (t ext : List Event) (x : Int)
    (h : ∀ e ∈ ext, e.op.is_dsi = true ∨ e.op.is_delay = true) :
    reset_line
      (t ++ (ext ++ [⟨.gpiod_set_value_cansleep 1, 0⟩, ⟨.regulator_bulk_disable, x⟩])) =
      some 1 := by
  simp [reset_line, List.filterMap_append, filterMap_reset_drive_panel ext h,
    Event.reset_drive, List.getLast?_append]

/-- C1 (as amended): a `samsung_ea8076_f1mp_prepare` on an unprepared panel in which every
call succeeds returns 0, sets `prepared`, and issues these hardware operations in this order:
regulators enabled, reset line driven to 1 then to 0, DCS exit-sleep-mode, the fixed register
writes (with set-tear-on and set-page-address among them), set-display-brightness 0, the
power-save write, and DCS set-display-on as the last command.  The sleep-out command comes
before the register writes. -/
theorem prepare_success_trace (env : Env) (s : State) (hs : s.prepared = false)
    (h : env.all_succeed) :
    ((samsung_ea8076_f1mp_prepare env).run s).1 = 0 ∧
    ((samsung_ea8076_f1mp_prepare env).run s).2.prepared = true ∧
    hw_ops (issued s ((samsung_ea8076_f1mp_prepare env).run s).2) =
      [.regulator_bulk_enable,
       .gpiod_set_value_cansleep 1,
       .gpiod_set_value_cansleep 0,
       .mipi_dsi_dcs_exit_sleep_mode,
       .mipi_dsi_dcs_write_buffer [0xf0, 0x5a, 0x5a],
       .mipi_dsi_dcs_set_tear_on .MIPI_DSI_DCS_TEAR_MODE_VBLANK,
       .mipi_dsi_dcs_write_buffer [0xb7, 0x01, 0x4b],
       .mipi_dsi_dcs_write_buffer [0xf0, 0xa5, 0xa5],
       .mipi_dsi_dcs_set_page_address 0x0000 0x0923,
       .mipi_dsi_dcs_write_buffer [0xf0, 0x5a, 0x5a],
       .mipi_dsi_dcs_write_buffer [0xfc, 0x5a, 0x5a],
       .mipi_dsi_dcs_write_buffer [0xb0, 0x23],
       .mipi_dsi_dcs_write_buffer [0xd1, 0x11],
       .mipi_dsi_dcs_write_buffer
         [0xe9, 0x11, 0x55, 0xa6, 0x75, 0xa3, 0xb9, 0xa1, 0x4a, 0x00, 0x1a, 0xb8],
       .mipi_dsi_dcs_write_buffer [0xe1, 0x00, 0x00, 0x02, 0x02, 0x42, 0x02],
       .mipi_dsi_dcs_write_buffer [0xe2, 0x00, 0x00, 0x00, 0x00, 0x00, 0x00],
       .mipi_dsi_dcs_write_buffer [0xb0, 0x0c],
       .mipi_dsi_dcs_write_buffer [0xe1, 0x19],
       .mipi_dsi_dcs_write_buffer [0xf0, 0xa5, 0xa5],
       .mipi_dsi_dcs_write_buffer [0xfc, 0xa5, 0xa5],
       .mipi_dsi_dcs_write_buffer [MIPI_DCS_WRITE_CONTROL_DISPLAY, 0x20],
       .mipi_dsi_dcs_set_display_brightness 0x0000,
       .mipi_dsi_dcs_write_buffer [MIPI_DCS_WRITE_POWER_SAVE, 0x00],
       .mipi_dsi_dcs_set_display_on] := by
  obtain ⟨ext, h1, h2⟩ := prepare_ok env s hs h
  rw [h2]
  refine ⟨rfl, rfl, ?_⟩
  rw [issued_append s _ _ rfl, hw_ops, ops_append, h1]
  rfl

/-- Witness for C1: the all-success environment on the unbound (unprepared) state. -/
theorem prepare_success_trace_witness :
    State.unbound.prepared = false ∧ Env.ok.all_succeed ∧
    ((samsung_ea8076_f1mp_prepare Env.ok).run State.unbound).1 = 0 ∧
    ((samsung_ea8076_f1mp_prepare Env.ok).run State.unbound).2.prepared = true :=
  ⟨rfl, fun _ => le_refl _,
    (prepare_success_trace Env.ok State.unbound rfl (fun _ => le_refl _)).1,
    (prepare_success_trace Env.ok State.unbound rfl (fun _ => le_refl _)).2.1⟩

/-- C1 (as stated) fails: in the run of `samsung_ea8076_f1mp_prepare` from the state left by
probe, with every call returning 0, the first four hardware operations are regulator enable,
reset to 1, reset to 0 and DCS exit-sleep-mode, and the first register write is the next one:
the sleep-out command is issued before the register writes, not after them. -/
theorem prepare_sleep_out_precedes_register_writes :
    State.powered_off.prepared = false ∧
    ((samsung_ea8076_f1mp_prepare Env.ok).run State.powered_off).1 = 0 ∧
    (hw_ops (issued State.powered_off
        ((samsung_ea8076_f1mp_prepare Env.ok).run State.powered_off).2)).take 5 =
      [.regulator_bulk_enable, .gpiod_set_value_cansleep 1, .gpiod_set_value_cansleep 0,
       .mipi_dsi_dcs_exit_sleep_mode, .mipi_dsi_dcs_write_buffer [0xf0, 0x5a, 0x5a]] ∧
    ¬ ((hw_ops (issued State.powered_off
          ((samsung_ea8076_f1mp_prepare Env.ok).run State.powered_off).2)).indexOf
        (.mipi_dsi_dcs_write_buffer [0xf0, 0x5a, 0x5a]) <
      (hw_ops (issued State.powered_off
          ((samsung_ea8076_f1mp_prepare Env.ok).run State.powered_off).2)).indexOf
        .mipi_dsi_dcs_exit_sleep_mode) := by
  decide

/-- C2: the `prepared` flag gates both callbacks.  `samsung_ea8076_f1mp_prepare` on a prepared
panel and `samsung_ea8076_f1mp_unprepare` on an unprepared panel return 0 and leave the whole
state unchanged; the trace is part of the state, so no regulator, GPIO or DSI operation is
issued. -/
theorem prepared_flag_gates (env : Env) (s : State) :
    (s.prepared = true →
      (samsung_ea8076_f1mp_prepare env).run s = (0, s) ∧
      issued s ((samsung_ea8076_f1mp_prepare env).run s).2 = []) ∧
    (s.prepared = false →
      (samsung_ea8076_f1mp_unprepare env).run s = (0, s) ∧
      issued s ((samsung_ea8076_f1mp_unprepare env).run s).2 = []) := by
  constructor
  · intro h
    rw [prepare_run]
    simp [h, issued]
  · intro h
    rw [unprepare_run]
    simp [h, issued]

/-- Witness for C2: a prepared and an unprepared state, in the all-success environment. -/
theorem prepared_flag_gates_witness :
    (samsung_ea8076_f1mp_prepare Env.ok).run { State.unbound with prepared := true } =
      (0, { State.unbound with prepared := true }) ∧
    (samsung_ea8076_f1mp_unprepare Env.ok).run State.unbound = (0, State.unbound) :=
  ⟨((prepared_flag_gates Env.ok { State.unbound with prepared := true }).1 rfl).1,
    ((prepared_flag_gates Env.ok State.unbound).2 rfl).1⟩

/-- C3: a `samsung_ea8076_f1mp_unprepare` on a prepared panel in which every call succeeds
issues, in this order, DCS set-display-off, DCS enter-sleep-mode, reset line driven to 1 and
regulators disabled; it returns 0, clears `prepared` and changes no other field. -/
theorem unprepare_success_trace (env : Env) (s : State) (hs : s.prepared = true)
    (h : env.all_succeed) :
    ((samsung_ea8076_f1mp_unprepare env).run s).1 = 0 ∧
    ((samsung_ea8076_f1mp_unprepare env).run s).2.prepared = false ∧
    hw_ops (issued s ((samsung_ea8076_f1mp_unprepare env).run s).2) =
      [.mipi_dsi_dcs_set_display_off, .mipi_dsi_dcs_enter_sleep_mode,
       .gpiod_set_value_cansleep 1, .regulator_bulk_disable] ∧
    ((samsung_ea8076_f1mp_unprepare env).run s).2.mode_flags = s.mode_flags ∧
    ((samsung_ea8076_f1mp_unprepare env).run s).2.lanes = s.lanes ∧
    ((samsung_ea8076_f1mp_unprepare env).run s).2.format = s.format := by
  obtain ⟨ext, x, h1, h2⟩ := unprepare_ok env s hs h
  rw [h2]
  refine ⟨rfl, rfl, ?_, rfl, rfl, rfl⟩
  rw [issued_append s _ _ rfl, hw_ops, ops_append, h1]
  rfl

/-- Witness for C3: the all-success environment on a prepared state. -/
theorem unprepare_success_trace_witness :
    Env.ok.all_succeed ∧
    ((samsung_ea8076_f1mp_unprepare Env.ok).run { State.unbound with prepared := true }).1 = 0 ∧
    hw_ops (issued { State.unbound with prepared := true }
      ((samsung_ea8076_f1mp_unprepare Env.ok).run { State.unbound with prepared := true }).2) =
      [.mipi_dsi_dcs_set_display_off, .mipi_dsi_dcs_enter_sleep_mode,
       .gpiod_set_value_cansleep 1, .regulator_bulk_disable] :=
  ⟨fun _ => le_refl _,
    (unprepare_success_trace Env.ok { State.unbound with prepared := true } rfl
      (fun _ => le_refl _)).1,
    (unprepare_success_trace Env.ok { State.unbound with prepared := true } rfl
      (fun _ => le_refl _)).2.2.1⟩

/-- C4: round trip.  A state left by a successful probe is powered off (`prepared` false,
regulator balance 0, reset line at 1).  From it, a `samsung_ea8076_f1mp_prepare` that returns 0
leads to the active state (`prepared` true, regulators enabled once, reset line at 0), and the
`samsung_ea8076_f1mp_unprepare` that follows returns 0 and leads back to the powered-off state,
with the device fields unchanged. -/
theorem prepare_unprepare_round_trip (env : Env) (s0 : State) (hp : post_probe s0)
    (h1 : ((samsung_ea8076_f1mp_prepare env).run s0).1 = 0) :
    (s0.prepared = false ∧ regulator_balance s0.trace = 0 ∧ reset_line s0.trace = some 1) ∧
    (((samsung_ea8076_f1mp_prepare env).run s0).2.prepared = true ∧
      regulator_balance ((samsung_ea8076_f1mp_prepare env).run s0).2.trace = 1 ∧
      reset_line ((samsung_ea8076_f1mp_prepare env).run s0).2.trace = some 0) ∧
    ((samsung_ea8076_f1mp_unprepare env).run
      ((samsung_ea8076_f1mp_prepare env).run s0).2).1 = 0 ∧
    (((samsung_ea8076_f1mp_unprepare env).run
        ((samsung_ea8076_f1mp_prepare env).run s0).2).2.prepared = false ∧
      regulator_balance ((samsung_ea8076_f1mp_unprepare env).run
        ((samsung_ea8076_f1mp_prepare env).run s0).2).2.trace = 0 ∧
      reset_line ((samsung_ea8076_f1mp_unprepare env).run
        ((samsung_ea8076_f1mp_prepare env).run s0).2).2.trace = some 1) ∧
    (((samsung_ea8076_f1mp_unprepare env).run
        ((samsung_ea8076_f1mp_prepare env).run s0).2).2.prepare_prev_first =
        s0.prepare_prev_first ∧
      ((samsung_ea8076_f1mp_unprepare env).run
        ((samsung_ea8076_f1mp_prepare env).run s0).2).2.lanes = s0.lanes ∧
      ((samsung_ea8076_f1mp_unprepare env).run
        ((samsung_ea8076_f1mp_prepare env).run s0).2).2.format = s0.format ∧
      ((samsung_ea8076_f1mp_unprepare env).run
        ((samsung_ea8076_f1mp_prepare env).run s0).2).2.mode_flags = s0.mode_flags) := by
  obtain ⟨a, b, c, d, e, -, -, hc, -, -, rfl⟩ := post_probe_eq s0 hp
  rcases prepare_spec env
    { prepared := false, prepare_prev_first := true, lanes := 4, format := MIPI_DSI_FMT_RGB888,
      mode_flags :=
        MIPI_DSI_MODE_VIDEO_BURST ||| MIPI_DSI_CLOCK_NON_CONTINUOUS ||| MIPI_DSI_MODE_LPM,
      trace := probe_events a b c d e } rfl with
    ⟨hlt, heq⟩ | ⟨hge, ext, fail, x, hext, hdsi, hneg, heq⟩ | ⟨hge, ext, hext, heq⟩
  · rw [heq] at h1
    exact absurd h1 (ne_of_lt hlt)
  · rw [heq] at h1
    exact absurd h1 (ne_of_lt hneg)
  · rw [heq]
    obtain ⟨ext2, x, hext2, heq2⟩ := unprepare_spec env
      { prepared := true, prepare_prev_first := true, lanes := 4, format := MIPI_DSI_FMT_RGB888,
        mode_flags :=
          MIPI_DSI_MODE_VIDEO_BURST ||| MIPI_DSI_CLOCK_NON_CONTINUOUS ||| MIPI_DSI_MODE_LPM,
        trace := probe_events a b c d e ++
          (⟨.regulator_bulk_enable, env.ret (probe_events a b c d e).length⟩ ::
            reset_pulse ++ ext) } rfl
    rw [heq2]
    refine ⟨⟨rfl, regulator_balance_probe_events a b c d e,
      reset_line_probe_events a b c d e hc⟩, ⟨rfl, ?_, ?_⟩, rfl, ⟨rfl, ?_, ?_⟩,
      rfl, rfl, rfl, rfl⟩
    · simp [regulator_balance_append, regulator_balance_cons, regulator_delta_enable,
        regulator_balance_probe_events, regulator_balance_panel ext hext,
        regulator_balance_reset_pulse, not_lt.mpr hge]
    · exact reset_line_after_prepare _ ext _ hext
    · simp [regulator_balance_append, regulator_balance_cons, regulator_delta_enable,
        regulator_delta_disable, regulator_delta_gpiod, regulator_balance_nil,
        regulator_balance_probe_events, regulator_balance_panel ext hext,
        regulator_balance_panel ext2 hext2, regulator_balance_reset_pulse, not_lt.mpr hge]
    · exact reset_line_after_unprepare _ ext2 _ hext2

/-- Witness for C4: probe, prepare and unprepare in the all-success environment. -/
theorem prepare_unprepare_round_trip_witness :
    post_probe State.powered_off ∧
    ((samsung_ea8076_f1mp_prepare Env.ok).run State.powered_off).1 = 0 ∧
    ((samsung_ea8076_f1mp_unprepare Env.ok).run
      ((samsung_ea8076_f1mp_prepare Env.ok).run State.powered_off).2).1 = 0 :=
  ⟨post_probe_powered_off, by decide,
    (prepare_unprepare_round_trip Env.ok State.powered_off post_probe_powered_off
      (by decide)).2.2.1⟩

/-- C8: regulator balance invariant.  After every prefix of a sequence of
`samsung_ea8076_f1mp_prepare` and `samsung_ea8076_f1mp_unprepare` calls made from a state left
by a successful probe, whatever each regulator and DSI call returns, the number of successful
`regulator_bulk_enable` calls minus the number of `regulator_bulk_disable` calls is 1 when
`prepared` is set and 0 otherwise, so it is never negative.  A prepare made then returns 0 or
a negative error, and when it returns the error `prepared` is still false and the balance
is 0; an unprepare made on a prepared panel returns 0, clears `prepared` and brings the balance
to 0, also when `samsung_ea8076_f1mp_off` fails. -/
theorem regulator_balance_invariant (env : Env) (s0 : State) (hp : post_probe s0)
    (calls : List PanelCall) (n : Nat) :
    (regulator_balance (run_calls env s0 (calls.take n)).trace =
      if (run_calls env s0 (calls.take n)).prepared = true then 1 else 0) ∧
    0 ≤ regulator_balance (run_calls env s0 (calls.take n)).trace ∧
    (((samsung_ea8076_f1mp_prepare env).run (run_calls env s0 (calls.take n))).1 = 0 ∨
      ((samsung_ea8076_f1mp_prepare env).run (run_calls env s0 (calls.take n))).1 < 0) ∧
    (((samsung_ea8076_f1mp_prepare env).run (run_calls env s0 (calls.take n))).1 < 0 →
      ((samsung_ea8076_f1mp_prepare env).run
        (run_calls env s0 (calls.take n))).2.prepared = false ∧
      regulator_balance ((samsung_ea8076_f1mp_prepare env).run
        (run_calls env s0 (calls.take n))).2.trace = 0) ∧
    ((run_calls env s0 (calls.take n)).prepared = true →
      ((samsung_ea8076_f1mp_unprepare env).run (run_calls env s0 (calls.take n))).1 = 0 ∧
      ((samsung_ea8076_f1mp_unprepare env).run
        (run_calls env s0 (calls.take n))).2.prepared = false ∧
      regulator_balance ((samsung_ea8076_f1mp_unprepare env).run
        (run_calls env s0 (calls.take n))).2.trace = 0) := by
  have hb := balanced_run_calls env (calls.take n) s0 (balanced_post_probe s0 hp)
  generalize run_calls env s0 (calls.take n) = s at hb
  have hprep := balanced_prepare env s hb
  have hunprep := balanced_unprepare env s hb
  refine ⟨hb, ?_, ?_, ?_, ?_⟩
  · rw [hb]
    split <;> decide
  · cases hs : s.prepared
    · rcases prepare_spec env s hs with ⟨hlt, heq⟩ |
        ⟨hge, ext, fail, x, hext, hdsi, hneg, heq⟩ | ⟨hge, ext, hext, heq⟩
      · exact Or.inr (by rw [heq]; exact hlt)
      · exact Or.inr (by rw [heq]; exact hneg)
      · exact Or.inl (by rw [heq])
    · exact Or.inl (by rw [prepare_run]; simp [hs])
  · intro hneg
    have hfalse : ((samsung_ea8076_f1mp_prepare env).run s).2.prepared = false := by
      cases hs : s.prepared
      · rcases prepare_spec env s hs with ⟨hlt, heq⟩ |
          ⟨hge, ext, fail, x, hext, hdsi, hneg2, heq⟩ | ⟨hge, ext, hext, heq⟩
        · rw [heq]; exact hs
        · rw [heq]; exact hs
        · rw [heq] at hneg
          exact absurd hneg (lt_irrefl 0)
      · rw [prepare_run] at hneg
        simp [hs] at hneg
    refine ⟨hfalse, ?_⟩
    rw [balanced, hfalse] at hprep
    simpa using hprep
  · intro hs
    obtain ⟨ext, x, hext, heq⟩ := unprepare_spec env s hs
    have hfalse : ((samsung_ea8076_f1mp_unprepare env).run s).2.prepared = false := by
      rw [heq]
    refine ⟨by rw [heq], hfalse, ?_⟩
    rw [balanced, hfalse] at hunprep
    simpa using hunprep

/-- Witness for C8: after probe, a prepare whose first DSI command fails and then a prepare
and an unprepare that succeed. -/
theorem regulator_balance_invariant_witness :
    post_probe State.powered_off ∧
    regulator_balance (run_calls (Env.fail_at 13 (-5)) State.powered_off
      ([PanelCall.prepare, .prepare, .unprepare].take 2)).trace =
      if (run_calls (Env.fail_at 13 (-5)) State.powered_off
        ([PanelCall.prepare, .prepare, .unprepare].take 2)).prepared = true then 1 else 0 :=
  ⟨post_probe_powered_off,
    (regulator_balance_invariant (Env.fail_at 13 (-5)) State.powered_off
      post_probe_powered_off [.prepare, .prepare, .unprepare] 2).1⟩

/-- C6: there is no mode switching.  For every connector and every driver state,
`samsung_ea8076_f1mp_get_modes` either returns 1, with exactly one mode put at the end of the
connector's probed modes, that mode being the fixed 1080x2340 mode with its name filled in and
type `DRM_MODE_TYPE_DRIVER | DRM_MODE_TYPE_PREFERRED`, and with the connector's
`width_mm`/`height_mm` set to 68/147; or, when duplicating the mode fails, returns `-ENOMEM`
and leaves the connector unchanged. -/
theorem get_modes_fixed_mode (alloc_ok : Bool) (panel : State) (connector : drm_connector) :
    (samsung_ea8076_f1mp_mode.hdisplay = 1080 ∧ samsung_ea8076_f1mp_mode.vdisplay = 2340) ∧
    ((alloc_ok = true ∧
      (samsung_ea8076_f1mp_get_modes alloc_ok panel connector).1 = 1 ∧
      (samsung_ea8076_f1mp_get_modes alloc_ok panel connector).2.probed_modes =
        connector.probed_modes ++
          [{ samsung_ea8076_f1mp_mode with
              type := DRM_MODE_TYPE_DRIVER ||| DRM_MODE_TYPE_PREFERRED
              name := "1080x2340" }] ∧
      (samsung_ea8076_f1mp_get_modes alloc_ok panel connector).2.display_info.width_mm = 68 ∧
      (samsung_ea8076_f1mp_get_modes alloc_ok panel connector).2.display_info.height_mm = 147) ∨
    (alloc_ok = false ∧
      (samsung_ea8076_f1mp_get_modes alloc_ok panel connector).1 = -ENOMEM ∧
      (samsung_ea8076_f1mp_get_modes alloc_ok panel connector).2 = connector)) := by
  refine ⟨⟨rfl, rfl⟩, ?_⟩
  cases alloc_ok
  · exact Or.inr ⟨rfl, rfl, rfl⟩
  · refine Or.inl ⟨rfl, rfl, ?_, rfl, rfl⟩
    have hname : (drm_mode_set_name samsung_ea8076_f1mp_mode).name = "1080x2340" := by decide
    simp only [samsung_ea8076_f1mp_get_modes, drm_mode_duplicate, drm_mode_probed_add, if_true]
    rw [← hname]
    rfl

/-- C7: without `CONFIG_OF_GPIO` the lookup helpers always fail.  For every node, list name
and index, `of_get_named_gpio` returns `-ENOSYS`, and `of_get_named_gpio_flags` returns
`-ENOSYS`, stores 0 through a non-null `flags` pointer and writes nothing through a null
one. -/
theorem of_gpio_stubs_fail (np : Option device_node) (list_name : String) (index : Int)
    (flags : Option Nat) :
    of_get_named_gpio np list_name index = -ENOSYS ∧
    (of_get_named_gpio_flags np list_name index flags).1 = -ENOSYS ∧
    (flags.isSome = true → (of_get_named_gpio_flags np list_name index flags).2 = some 0) ∧
    (flags = none → (of_get_named_gpio_flags np list_name index flags).2 = none) := by
  refine ⟨rfl, rfl, ?_, ?_⟩
  · intro h
    cases flags with
    | none => simp at h
    | some v => rfl
  · intro h
    rw [h]
    rfl

/-- Witness for C7: a non-null flags pointer holding 5 and a null one. -/
theorem of_gpio_stubs_fail_witness :
    (of_get_named_gpio_flags none "reset-gpios" 0 (some 5)).2 = some 0 ∧
    (of_get_named_gpio_flags none "reset-gpios" 0 none).2 = none :=
  ⟨(of_gpio_stubs_fail none "reset-gpios" 0 (some 5)).2.2.1 rfl,
    (of_gpio_stubs_fail none "reset-gpios" 0 none).2.2.2 rfl⟩

/-- C9, evaluated where it fails: in the state left by probe `mode_flags` is
`MIPI_DSI_MODE_VIDEO_BURST | MIPI_DSI_CLOCK_NON_CONTINUOUS | MIPI_DSI_MODE_LPM`, with
`MIPI_DSI_MODE_LPM` set.  When the brightness transfer (position 8 of the trace) returns -5,
`samsung_ea8076_f1mp_bl_update_status` and `samsung_ea8076_f1mp_bl_get_brightness` return -5
and leave `mode_flags` with `MIPI_DSI_MODE_LPM` cleared, different from its value before the
call; when the transfer succeeds they return 0 and the brightness read, with `mode_flags` as
before the call. -/
theorem backlight_error_path_drops_lpm :
    State.powered_off.mode_flags =
      MIPI_DSI_MODE_VIDEO_BURST ||| MIPI_DSI_CLOCK_NON_CONTINUOUS ||| MIPI_DSI_MODE_LPM ∧
    State.powered_off.mode_flags &&& MIPI_DSI_MODE_LPM = MIPI_DSI_MODE_LPM ∧
    (((samsung_ea8076_f1mp_bl_update_status (Env.fail_at 8 (-5)) 1024).run
        State.powered_off).1 = -5 ∧
      ((samsung_ea8076_f1mp_bl_update_status (Env.fail_at 8 (-5)) 1024).run
        State.powered_off).2.mode_flags &&& MIPI_DSI_MODE_LPM = 0 ∧
      ((samsung_ea8076_f1mp_bl_update_status (Env.fail_at 8 (-5)) 1024).run
        State.powered_off).2.mode_flags ≠ State.powered_off.mode_flags) ∧
    (((samsung_ea8076_f1mp_bl_get_brightness (Env.fail_at 8 (-5))).run
        State.powered_off).1 = -5 ∧
      ((samsung_ea8076_f1mp_bl_get_brightness (Env.fail_at 8 (-5))).run
        State.powered_off).2.mode_flags &&& MIPI_DSI_MODE_LPM = 0 ∧
      ((samsung_ea8076_f1mp_bl_get_brightness (Env.fail_at 8 (-5))).run
        State.powered_off).2.mode_flags ≠ State.powered_off.mode_flags) ∧
    (((samsung_ea8076_f1mp_bl_update_status Env.ok 1024).run State.powered_off).1 = 0 ∧
      ((samsung_ea8076_f1mp_bl_update_status Env.ok 1024).run
        State.powered_off).2.mode_flags = State.powered_off.mode_flags) ∧
    (((samsung_ea8076_f1mp_bl_get_brightness ⟨fun _ => 0, fun _ => 1024, true⟩).run
        State.powered_off).1 = 1024 ∧
      ((samsung_ea8076_f1mp_bl_get_brightness ⟨fun _ => 0, fun _ => 1024, true⟩).run
        State.powered_off).2.mode_flags = State.powered_off.mode_flags) := by
  decide

/-- C10: the pixel clock of the fixed mode is computed without 32-bit signed overflow and
describes a 60 Hz mode.  `htotal` is 1228 and `vtotal` is 2495; the products
`htotal * vtotal` and `htotal * vtotal * 60 = 183831600` are below `2^31`; `clock` is
183831, the truncated quotient by 1000; `clock * 1000 / (htotal * vtotal)` rounded to the
nearest integer is 60; and the horizontal and vertical timings are ordered. -/
theorem mode_clock_60hz_no_overflow :
    samsung_ea8076_f1mp_mode.htotal = 1228 ∧ samsung_ea8076_f1mp_mode.vtotal = 2495 ∧
    samsung_ea8076_f1mp_mode.htotal * samsung_ea8076_f1mp_mode.vtotal < 2 ^ 31 ∧
    samsung_ea8076_f1mp_mode.htotal * samsung_ea8076_f1mp_mode.vtotal * 60 = 183831600 ∧
    183831600 < 2 ^ 31 ∧
    samsung_ea8076_f1mp_mode.clock = 183831 ∧
    samsung_ea8076_f1mp_mode.clock =
      ((samsung_ea8076_f1mp_mode.htotal * samsung_ea8076_f1mp_mode.vtotal * 60 / 1000 : Nat) :
        Int) ∧
    (samsung_ea8076_f1mp_mode.clock.toNat * 1000 +
        samsung_ea8076_f1mp_mode.htotal * samsung_ea8076_f1mp_mode.vtotal / 2) /
      (samsung_ea8076_f1mp_mode.htotal * samsung_ea8076_f1mp_mode.vtotal) = 60 ∧
    2 * (60 * (samsung_ea8076_f1mp_mode.htotal * samsung_ea8076_f1mp_mode.vtotal) -
        samsung_ea8076_f1mp_mode.clock.toNat * 1000) ≤
      samsung_ea8076_f1mp_mode.htotal * samsung_ea8076_f1mp_mode.vtotal ∧
    (samsung_ea8076_f1mp_mode.hdisplay ≤ samsung_ea8076_f1mp_mode.hsync_start ∧
      samsung_ea8076_f1mp_mode.hsync_start ≤ samsung_ea8076_f1mp_mode.hsync_end ∧
      samsung_ea8076_f1mp_mode.hsync_end ≤ samsung_ea8076_f1mp_mode.htotal) ∧
    (samsung_ea8076_f1mp_mode.vdisplay ≤ samsung_ea8076_f1mp_mode.vsync_start ∧
      samsung_ea8076_f1mp_mode.vsync_start ≤ samsung_ea8076_f1mp_mode.vsync_end ∧
      samsung_ea8076_f1mp_mode.vsync_end ≤ samsung_ea8076_f1mp_mode.vtotal) := by
  decide

end EA8076
